import Mathlib

/-!
Verification of the cppunit test composition and execution engine against its
specification.  The development shallowly embeds the relevant source files:

* `src/trunk/cppunit/src/cppunit/TestSuite.cpp` — the composite test tree
  (`TestSuite::run`, `TestSuite::countTestCases`);
* `src/trunk/cppunit/examples/cppunittest/MockTestListener.cpp` — the
  expectation-based mock listener;
* `src/trunk/cppunit/src/DllPlugInTester/DllPlugInTester.cpp` — the plug-in
  tester driver (`runTests`, `main`), including its object-lifetime discipline.

Machine state that matters to the claims (the `TestResult` stop flag, the event
stream seen by listeners, mock counters, C++ construction/destruction order) is
made explicit; C++ exceptions become `Except` values; pointer identity becomes
`Nat` identifiers.
-/

namespace CppUnit

/-- A notification delivered to a `TestResult` (and fanned out to listeners)
while a test tree runs.  `startSuite`/`endSuite` are part of the
`TestListener` capability surface, so they appear in the event alphabet even
though we must prove whether `TestSuite::run` ever emits them. -/
inductive Event where
  | startTest (id : Nat)
  | addFailure (id : Nat)
  | endTest (id : Nat)
  | startSuite (name : String)
  | endSuite (name : String)
deriving Repr, DecidableEq

/-- `true` exactly on the suite-level events `startSuite`/`endSuite`. -/
def Event.isSuiteEvent : Event → Bool
  | Event.startSuite _ => true
  | Event.endSuite _ => true
  | _ => false

/-- The run-time hub for one run: the "should stop" flag plus the ordered
stream of notifications dispatched so far.  The spec's `TestResult` keeps no
other run state. -/
structure TestResult where
  stopped : Bool
  events : List Event
deriving Repr, DecidableEq

/-- Embeds `TestResult::shouldStop()`: reads the stop flag. -/
def TestResult.shouldStop (r : TestResult) : Bool := r.stopped

/-- Embeds `TestFailure`: an immutable record of one failure event.  The
failed test and the thrown exception are non-owning pointers in C++; their
identity is modelled by `Nat` identifiers (the mock compares them with
pointer equality, never dereferencing). -/
structure TestFailure where
  failedTest : Nat
  thrownException : Nat
  isError : Bool
deriving Repr, DecidableEq

/-- The composite test tree (spec §3): a polymorphic `Test` with an atomic
test-case variant and a suite variant owning an ordered list of children
(`TestSuite::m_tests`, insertion order = execution order).  A leaf carries an
identifier standing for its C++ object identity, whether its check sequence
fails, and whether during its run some listener sets the result's stop flag. -/
inductive Test where
  | testCase (id : Nat) (fails : Bool) (requestStop : Bool)
  | suite (name : String) (children : List Test)
deriving Repr

mutual

/-- Embeds `Test::run`.  The suite alternative is `TestSuite::run`
(TestSuite.cpp lines 21–33): iterate the children in order, consulting
`result->shouldStop()` before each child and breaking when it is set, and
delegate `run` to each child.  The leaf alternative is modelled from the
spec: a leaf test case reports its outcome through the supplied result,
emitting `startTest`, then `addFailure` when its check fails, then `endTest`,
and the stop flag becomes (and stays) set when a notified listener requests a
stop during that leaf's run (the flag is monotone: `or` with its old value). -/
def Test.run : Test → TestResult → TestResult
  | Test.testCase id fails requestStop, r =>
      { stopped := r.stopped || requestStop
        events := r.events ++ [Event.startTest id] ++
                  (if fails then [Event.addFailure id] else []) ++ [Event.endTest id] }
  | Test.suite _ children, r => runChildren children r

/-- The loop body of `TestSuite::run` (TestSuite.cpp lines 23–31): for each
child in order, first check `result->shouldStop()` and break if set, otherwise
run the child and continue with the updated result. -/
def runChildren : List Test → TestResult → TestResult
  | [], r => r
  | t :: ts, r =>
      if TestResult.shouldStop r then r
      else runChildren ts (Test.run t r)

end

mutual

/-- Embeds `Test::countTestCases`.  The suite alternative is
`TestSuite::countTestCases` (TestSuite.cpp lines 37–48): accumulate the
children's counts starting from 0.  The leaf alternative returns 1 (spec §3:
a leaf's `countTestCases` returns 1).  The C++ method is `const` and touches
no `TestResult`; accordingly the embedding is a pure function of the tree
alone, so evaluating it can neither run a test nor change any state. -/
def Test.countTestCases : Test → Int
  | Test.testCase _ _ _ => 1
  | Test.suite _ children => countChildren children

/-- The accumulation loop of `TestSuite::countTestCases` (TestSuite.cpp lines
39–46): `count = 0; for each child: count += child->countTestCases()`.
Association of the additions differs from the left-to-right loop only up to
associativity of integer addition. -/
def countChildren : List Test → Int
  | [] => 0
  | t :: ts => Test.countTestCases t + countChildren ts

end

/-- Embeds `TestSuite::toString` (TestSuite.cpp lines 86–90) on the suite
variant; a leaf renders as its identifier. -/
def Test.toString : Test → String
  | Test.testCase id _ _ => "case " ++ Nat.repr id
  | Test.suite name _ => "suite " ++ name

section TreeLemmas

theorem runChildren_append_of_stopped (pre post : List Test) (r : TestResult)
    (h : (runChildren pre r).stopped = true) :
    runChildren (pre ++ post) r = runChildren pre r := by
  revert h
  induction pre generalizing r with
  | nil =>
    intro h
    cases post with
    | nil => rfl
    | cons t ts =>
      simp only [List.nil_append, runChildren, TestResult.shouldStop]
      simp only [runChildren] at h
      simp [h]
  | cons t ts ih =>
    intro h
    by_cases hs : r.stopped
    · simp [runChildren, TestResult.shouldStop, hs]
    · simp only [List.cons_append, runChildren, TestResult.shouldStop, hs, if_neg] at h ⊢
      exact ih (Test.run t r) h

mutual

theorem run_filterSuiteEvents (t : Test) (r : TestResult) :
    (Test.run t r).events.filter Event.isSuiteEvent = r.events.filter Event.isSuiteEvent := by
  cases t with
  | testCase id fails requestStop =>
    cases fails <;> simp [Test.run, Event.isSuiteEvent, List.filter_append]
  | suite name children =>
    simp only [Test.run]
    exact runChildren_filterSuiteEvents children r

theorem runChildren_filterSuiteEvents (ts : List Test) (r : TestResult) :
    (runChildren ts r).events.filter Event.isSuiteEvent = r.events.filter Event.isSuiteEvent := by
  cases ts with
  | nil => rfl
  | cons t ts' =>
    simp only [runChildren]
    by_cases hs : TestResult.shouldStop r
    · simp [hs]
    · simp only [hs, if_neg, Bool.false_eq_true, not_false_iff]
      rw [runChildren_filterSuiteEvents ts' (Test.run t r),
          run_filterSuiteEvents t r]

end

end TreeLemmas

/-- Claim C1: in `TestSuite::run(result)` the suite consults
`result.shouldStop()` before starting each child in insertion order, so if the
stop flag has become set after the children of some prefix `pre` have run,
the remaining children `post` are never started: running the suite over
`pre ++ post` produces exactly the state produced by running it over `pre`
alone — the trailing children contribute no state change and no event, their
`run` is never invoked. -/
theorem testSuite_run_stopsEarly (name : String) (pre post : List Test)
    (r : TestResult) (h : (runChildren pre r).stopped = true) :
    Test.run (Test.suite name (pre ++ post)) r = Test.run (Test.suite name pre) r := by
  simp only [Test.run]
  exact runChildren_append_of_stopped pre post r h

/-- Witness for C1 at a concrete input: the first child requests a stop, and
the second child of the same suite is never started. -/
theorem testSuite_run_stopsEarly_witness :
    (runChildren [Test.testCase 1 false true]
        { stopped := false, events := [] }).stopped = true ∧
    Test.run (Test.suite "s" ([Test.testCase 1 false true] ++ [Test.testCase 2 false false]))
        { stopped := false, events := [] } =
      Test.run (Test.suite "s" [Test.testCase 1 false true])
        { stopped := false, events := [] } :=
  ⟨by decide,
   testSuite_run_stopsEarly "s" [Test.testCase 1 false true] [Test.testCase 2 false false]
     { stopped := false, events := [] } (by decide)⟩

/-- Claim C2: for every suite S with children `[c1..cn]`,
`S.countTestCases()` is the sum of the children's `countTestCases()` (0 for a
suite with no children).  The embedding of `countTestCases` is a pure function
of the tree — mirroring the `const` C++ method that takes no `TestResult` —
so evaluating it runs no test and changes no state by construction. -/
theorem testSuite_countTestCases_eq_sum (name : String) (children : List Test) :
    Test.countTestCases (Test.suite name children)
      = (children.map Test.countTestCases).sum := by
  simp only [Test.countTestCases]
  induction children with
  | nil => rfl
  | cons t ts ih => simp [countChildren, ih]

/-- Claim C8, counterexample: `TestSuite::run` does not notify the result of
the suite's start or end.  Running the concrete suite `"root"` holding one
failing leaf produces the event stream
`[startTest 1, addFailure 1, endTest 1]`, which contains neither
`startSuite "root"` nor `endSuite "root"`. -/
theorem testSuite_run_noSuiteEvents_counterexample :
    Event.startSuite "root" ∉
        (Test.run (Test.suite "root" [Test.testCase 1 true false])
          { stopped := false, events := [] }).events ∧
    Event.endSuite "root" ∉
        (Test.run (Test.suite "root" [Test.testCase 1 true false])
          { stopped := false, events := [] }).events ∧
    (Test.run (Test.suite "root" [Test.testCase 1 true false])
          { stopped := false, events := [] }).events
      = [Event.startTest 1, Event.addFailure 1, Event.endTest 1] := by
  decide

/-- Claim C8 as amended: `TestSuite::run(result)` (TestSuite.cpp lines 21–33)
emits no `startSuite`/`endSuite` event at all — it only iterates its children
under the should-stop discipline and delegates to them, so the suite-event
part of the result's stream after running any tree is exactly what it was
before; the stream produced by a run consists solely of the leaf events
`startTest`/`addFailure`/`endTest`. -/
theorem testSuite_run_emitsNoSuiteEvents (t : Test) (r : TestResult) :
    (Test.run t r).events.filter Event.isSuiteEvent
      = r.events.filter Event.isSuiteEvent :=
  run_filterSuiteEvents t r

end CppUnit

/-! ## MockTestListener (examples/cppunittest/MockTestListener.cpp)

The mock's five notification methods assert expectations with
`CPPUNIT_ASSERT_MESSAGE`, which throws on violation; a method is therefore
embedded as a state transformer into `Except String`, where `Except.error msg`
is the assertion raised synchronously inside the call and `Except.ok` carries
the updated mock state.  Only the members the claims exercise are embedded
(`addFailure`, `verify`, the failure-expectation setters and the
constructor); all data members are present so that `verify` is translated in
full. -/

/-- The mock's per-notification expectation state, one field per data member
of `MockTestListener` (MockTestListener.cpp lines 6–33).  C++ `Test*` /
`Exception*` expectation pointers are modelled as `Nat` identities. -/
structure MockTestListener where
  m_name : String
  m_hasExpectationForStartTest : Bool
  m_hasParametersExpectationForStartTest : Bool
  m_expectedStartTestCallCount : Int
  m_startTestCall : Int
  m_hasExpectationForEndTest : Bool
  m_hasParametersExpectationForEndTest : Bool
  m_expectedEndTestCallCount : Int
  m_endTestCall : Int
  m_hasExpectationForStartSuite : Bool
  m_hasParametersExpectationForStartSuite : Bool
  m_expectedStartSuiteCallCount : Int
  m_startSuiteCall : Int
  m_hasExpectationForEndSuite : Bool
  m_hasParametersExpectationForEndSuite : Bool
  m_expectedEndSuiteCallCount : Int
  m_endSuiteCall : Int
  m_hasExpectationForAddFailure : Bool
  m_hasExpectationForSomeFailure : Bool
  m_hasParametersExpectationForAddFailure : Bool
  m_expectedAddFailureCallCount : Int
  m_addFailureCall : Int
  m_expectedFailedTest : Nat
  m_expectedException : Nat
  m_expectedIsError : Bool
  m_expectedStartTest : Nat
  m_expectedEndTest : Nat
  m_expectedStartSuite : Nat
  m_expectedEndSuite : Nat
deriving Repr, DecidableEq

/-- Embeds the `MockTestListener` constructor (lines 6–33): all flags false,
all counters zero.  The C++ constructor leaves `m_expectedStartTest` and its
three siblings uninitialized (they are only read after the corresponding
setter ran); the embedding picks 0. -/
def MockTestListener.new (name : String) : MockTestListener :=
  { m_name := name
    m_hasExpectationForStartTest := false
    m_hasParametersExpectationForStartTest := false
    m_expectedStartTestCallCount := 0
    m_startTestCall := 0
    m_hasExpectationForEndTest := false
    m_hasParametersExpectationForEndTest := false
    m_expectedEndTestCallCount := 0
    m_endTestCall := 0
    m_hasExpectationForStartSuite := false
    m_hasParametersExpectationForStartSuite := false
    m_expectedStartSuiteCallCount := 0
    m_startSuiteCall := 0
    m_hasExpectationForEndSuite := false
    m_hasParametersExpectationForEndSuite := false
    m_expectedEndSuiteCallCount := 0
    m_endSuiteCall := 0
    m_hasExpectationForAddFailure := false
    m_hasExpectationForSomeFailure := false
    m_hasParametersExpectationForAddFailure := false
    m_expectedAddFailureCallCount := 0
    m_addFailureCall := 0
    m_expectedFailedTest := 0
    m_expectedException := 0
    m_expectedIsError := false
    m_expectedStartTest := 0
    m_expectedEndTest := 0
    m_expectedStartSuite := 0
    m_expectedEndSuite := 0 }

/-- Embeds the three-argument `MockTestListener::setExpectFailure(failedTest,
thrownException, isError)` (lines 36–47): switches on the count expectation
with expected count 1 and the parameter expectation with the given values. -/
def MockTestListener.setExpectFailure (m : MockTestListener)
    (failedTest thrownException : Nat) (isError : Bool) : MockTestListener :=
  { m with
    m_hasExpectationForAddFailure := true
    m_hasParametersExpectationForAddFailure := true
    m_expectedAddFailureCallCount := 1
    m_expectedFailedTest := failedTest
    m_expectedException := thrownException
    m_expectedIsError := isError }

/-- Embeds `MockTestListener::setExpectNoFailure()` (lines 50–55). -/
def MockTestListener.setExpectNoFailure (m : MockTestListener) : MockTestListener :=
  { m with
    m_hasExpectationForAddFailure := true
    m_expectedAddFailureCallCount := 0 }

/-- Embeds the no-argument overload `MockTestListener::setExpectFailure()`
(lines 58–62), the "some failure expected, count unspecified" mode: it only
switches on `m_hasExpectationForSomeFailure`.  Renamed because Lean does not
overload on arity. -/
def MockTestListener.setExpectSomeFailure (m : MockTestListener) : MockTestListener :=
  { m with m_hasExpectationForSomeFailure := true }

/-- Embeds `MockTestListener::setExpectedAddFailureCall(callCount)`
(lines 65–70). -/
def MockTestListener.setExpectedAddFailureCall (m : MockTestListener)
    (callCount : Int) : MockTestListener :=
  { m with
    m_hasExpectationForAddFailure := true
    m_expectedAddFailureCallCount := callCount }

/-- Embeds `MockTestListener::addFailure(failure)` (lines 145–166), statement
by statement: first the conditional increment of `m_addFailureCall`, then —
when the count expectation is armed — `CPPUNIT_ASSERT_MESSAGE` that the
observed count has not exceeded the expected count, then — when the parameter
expectation is armed — the three parameter asserts in source order (failed
test, thrown exception, `isError`).  An assert that does not hold raises
there and then: the method returns `Except.error` and no later statement of
the method runs. -/
def MockTestListener.addFailure (m : MockTestListener) (failure : CppUnit.TestFailure) :
    Except String MockTestListener :=
  let m := if m.m_hasExpectationForAddFailure || m.m_hasExpectationForSomeFailure then
             { m with m_addFailureCall := m.m_addFailureCall + 1 }
           else m
  if m.m_hasExpectationForAddFailure &&
      !(decide (m.m_addFailureCall ≤ m.m_expectedAddFailureCallCount)) then
    Except.error (m.m_name ++ ": unexpected call")
  else if m.m_hasParametersExpectationForAddFailure &&
      !(m.m_expectedFailedTest == failure.failedTest) then
    Except.error (m.m_name ++ ": bad test")
  else if m.m_hasParametersExpectationForAddFailure &&
      !(m.m_expectedException == failure.thrownException) then
    Except.error (m.m_name ++ ": bad thrownException")
  else if m.m_hasParametersExpectationForAddFailure &&
      !(m.m_expectedIsError == failure.isError) then
    Except.error (m.m_name ++ ": bad isError")
  else
    Except.ok m

/-- Embeds `MockTestListener::verify()` (lines 242–286): the six checks in
source order, each guarded by its expectation flag; the five
`CPPUNIT_ASSERT_EQUAL_MESSAGE` checks compare expected against observed call
count, and the some-failure check asserts the observed `addFailure` count is
positive. -/
def MockTestListener.verify (m : MockTestListener) : Except String Unit :=
  if m.m_hasExpectationForStartTest &&
      !(m.m_expectedStartTestCallCount == m.m_startTestCall) then
    Except.error (m.m_name ++ ": missing startTest calls")
  else if m.m_hasExpectationForEndTest &&
      !(m.m_expectedEndTestCallCount == m.m_endTestCall) then
    Except.error (m.m_name ++ ": missing endTest calls")
  else if m.m_hasExpectationForStartSuite &&
      !(m.m_expectedStartSuiteCallCount == m.m_startSuiteCall) then
    Except.error (m.m_name ++ ": missing startSuite calls")
  else if m.m_hasExpectationForEndSuite &&
      !(m.m_expectedEndSuiteCallCount == m.m_endSuiteCall) then
    Except.error (m.m_name ++ ": missing endSuite calls")
  else if m.m_hasExpectationForAddFailure &&
      !(m.m_expectedAddFailureCallCount == m.m_addFailureCall) then
    Except.error (m.m_name ++ ": missing addFailure calls")
  else if m.m_hasExpectationForSomeFailure && !(decide (0 < m.m_addFailureCall)) then
    Except.error (m.m_name ++ ": there was no call to MockTestListener::addFailure()")
  else
    Except.ok ()

/-- A run that delivers the listed `addFailure` notifications to the mock in
order; the first assertion raised inside `addFailure` aborts the run with that
assertion, exactly as the thrown `CPPUNIT_ASSERT` would. -/
def runFailures : MockTestListener → List CppUnit.TestFailure → Except String MockTestListener
  | m, [] => Except.ok m
  | m, f :: fs =>
    match m.addFailure f with
    | Except.error e => Except.error e
    | Except.ok m2 => runFailures m2 fs

/-- Deliver the listed `addFailure` notifications, then call `verify()`. -/
def verifyAfter (m : MockTestListener) (fs : List CppUnit.TestFailure) :
    Except String Unit :=
  match runFailures m fs with
  | Except.error e => Except.error e
  | Except.ok m2 => m2.verify

/-- A mock configured by `setExpectFailure(failedTest, thrownException,
isError)` on a fresh instance. -/
def expectOneMatchingFailure (name : String) (t e : Nat) (b : Bool) : MockTestListener :=
  (MockTestListener.new name).setExpectFailure t e b

/-- The state of `expectOneMatchingFailure` after one matching `addFailure`
call was accepted. -/
def expectOneMatchingFailureCalled (name : String) (t e : Nat) (b : Bool) : MockTestListener :=
  { expectOneMatchingFailure name t e b with m_addFailureCall := 1 }

/-- A mock configured by the no-argument `setExpectFailure()` on a fresh
instance (some-failure mode). -/
def someFailureMode (name : String) : MockTestListener :=
  (MockTestListener.new name).setExpectSomeFailure

section MockLemmas

theorem addFailure_someFailureMode (name : String) (c : Int) (f : CppUnit.TestFailure) :
    MockTestListener.addFailure { someFailureMode name with m_addFailureCall := c } f
      = Except.ok { someFailureMode name with m_addFailureCall := c + 1 } := rfl

theorem runFailures_someFailureMode (name : String) (fs : List CppUnit.TestFailure) (c : Int) :
    runFailures { someFailureMode name with m_addFailureCall := c } fs
      = Except.ok { someFailureMode name with m_addFailureCall := c + fs.length } := by
  induction fs generalizing c with
  | nil => simp [runFailures]
  | cons f fs ih =>
    rw [runFailures, addFailure_someFailureMode]
    dsimp only
    rw [ih (c + 1)]
    congr 1
    simp only [MockTestListener.mk.injEq, List.length_cons, eq_self_iff_true,
               true_and, and_true]
    push_cast
    omega

theorem verify_someFailureMode (name : String) (n : Int) :
    (MockTestListener.verify { someFailureMode name with m_addFailureCall := n }
        = Except.ok ()) ↔ 0 < n := by
  by_cases h : 0 < n <;>
    simp [MockTestListener.verify, someFailureMode, MockTestListener.new,
          MockTestListener.setExpectSomeFailure, h]

end MockLemmas

/-- Claim C4: a `MockTestListener` configured with
`setExpectedAddFailureCall(2)` passes `verify()` after a run with exactly two
`addFailure` calls; after a run with exactly one call `verify()` fails; and a
third call fails immediately inside `addFailure` — the observed count is
checked against the expected count at call time — before `verify()` is ever
reached.  The failure records carried by the calls are arbitrary: no
parameter expectation is armed by this setter. -/
theorem mockListener_expectedAddFailureCallCount (name : String)
    (f1 f2 f3 : CppUnit.TestFailure) :
    verifyAfter ((MockTestListener.new name).setExpectedAddFailureCall 2) [f1, f2]
        = Except.ok () ∧
    verifyAfter ((MockTestListener.new name).setExpectedAddFailureCall 2) [f1]
        = Except.error (name ++ ": missing addFailure calls") ∧
    (∃ m2, runFailures ((MockTestListener.new name).setExpectedAddFailureCall 2) [f1, f2]
        = Except.ok m2 ∧
      m2.addFailure f3 = Except.error (name ++ ": unexpected call")) :=
  ⟨rfl, rfl, _, rfl, rfl⟩

/-- Claim C5: for a mock configured via `setExpectFailure(t, e, true)`, an
`addFailure` call whose `TestFailure` carries `isError = false` — or a
different failed-test reference, or a different exception reference — raises
the expectation-violation assertion synchronously inside `addFailure`: the
call itself returns the assertion failure, so it is not deferred to
`verify()`. -/
theorem mockListener_paramMismatch_failsAtCallTime (name : String)
    (t e t2 e2 : Nat) (ht : t2 ≠ t) (he : e2 ≠ e) :
    (expectOneMatchingFailure name t e true).addFailure
        { failedTest := t, thrownException := e, isError := false }
      = Except.error (name ++ ": bad isError") ∧
    (expectOneMatchingFailure name t e true).addFailure
        { failedTest := t2, thrownException := e, isError := true }
      = Except.error (name ++ ": bad test") ∧
    (expectOneMatchingFailure name t e true).addFailure
        { failedTest := t, thrownException := e2, isError := true }
      = Except.error (name ++ ": bad thrownException") := by
  have hts : (t == t2) = false := by simp [Ne.symm ht]
  have hes : (e == e2) = false := by simp [Ne.symm he]
  refine ⟨?_, ?_, ?_⟩ <;>
    simp [expectOneMatchingFailure, MockTestListener.addFailure,
          MockTestListener.new, MockTestListener.setExpectFailure, hts, hes]

/-- Witness for C5 at concrete pointer identities 1, 2, 3, 4. -/
theorem mockListener_paramMismatch_failsAtCallTime_witness :
    (3 ≠ 1 ∧ 4 ≠ 2) ∧
    ((expectOneMatchingFailure "mock" 1 2 true).addFailure
        { failedTest := 1, thrownException := 2, isError := false }
      = Except.error ("mock" ++ ": bad isError") ∧
    (expectOneMatchingFailure "mock" 1 2 true).addFailure
        { failedTest := 3, thrownException := 2, isError := true }
      = Except.error ("mock" ++ ": bad test") ∧
    (expectOneMatchingFailure "mock" 1 2 true).addFailure
        { failedTest := 1, thrownException := 4, isError := true }
      = Except.error ("mock" ++ ": bad thrownException")) :=
  ⟨⟨by decide, by decide⟩,
   mockListener_paramMismatch_failsAtCallTime "mock" 1 2 3 4 (by decide) (by decide)⟩

/-- Claim C9: for a mock configured with the no-argument `setExpectFailure()`
(some-failure mode), `verify()` succeeds if and only if `addFailure` was
called at least once during the run.  The run below is an arbitrary list of
failure records: no call count beyond positivity and no parameter value is
checked in this mode (every call is accepted, whatever it carries). -/
theorem mockListener_someFailureMode_verify (name : String)
    (fs : List CppUnit.TestFailure) :
    (verifyAfter (someFailureMode name) fs = Except.ok ()) ↔ fs ≠ [] := by
  have h0 : someFailureMode name
      = { someFailureMode name with m_addFailureCall := 0 } := rfl
  rw [verifyAfter, h0, runFailures_someFailureMode name fs 0]
  rw [verify_someFailureMode]
  simp [List.length_pos]

/-- Claim C10: the three-argument `setExpectFailure(failedTest,
thrownException, isError)` also fixes the expected `addFailure` call count at
exactly 1, so the count and parameter expectation kinds are coupled by this
setter: a second `addFailure` call fails fast inside `addFailure` — before
the parameter checks, hence even though its parameters match the expectation
exactly — rather than at `verify()` time. -/
theorem mockListener_setExpectFailure_fixesCountOne (name : String)
    (t e : Nat) (b : Bool) :
    (expectOneMatchingFailure name t e b).m_expectedAddFailureCallCount = 1 ∧
    (expectOneMatchingFailure name t e b).addFailure
        { failedTest := t, thrownException := e, isError := b }
      = Except.ok (expectOneMatchingFailureCalled name t e b) ∧
    (expectOneMatchingFailureCalled name t e b).addFailure
        { failedTest := t, thrownException := e, isError := b }
      = Except.error (name ++ ": unexpected call") := by
  refine ⟨rfl, ?_, ?_⟩ <;>
    simp [expectOneMatchingFailure, expectOneMatchingFailureCalled,
          MockTestListener.addFailure, MockTestListener.new,
          MockTestListener.setExpectFailure]

/-! ## DllPlugInTester (src/DllPlugInTester/DllPlugInTester.cpp)

`runTests` and `main` are embedded as functions of (1) the parsed command
line — a record mirroring the `CommandLineParser` accessors the driver reads —
and (2) an environment describing the external collaborators that are not part
of this repository's sources under scrutiny (which dynamic libraries load,
whether the test path resolves, whether the collected run was successful).
Because the safety claim about the driver concerns C++ object lifetimes, the
embedding computes the ordered trace of the observable actions of one
`runTests` call — constructions, destructions (automatic storage is destroyed
at scope exit in reverse construction order, both on normal exit and on
stack unwinding), listener registrations, the run, the report writes — next
to its returned value; thrown exceptions become `Except.error`. -/

namespace DllPlugInTester

/-- Embeds `CommandLinePlugInInfo`: one plug-in file name with its parameter
string, as produced by the command-line parser. -/
structure CommandLinePlugInInfo where
  m_fileName : String
  m_parameters : String
deriving Repr, DecidableEq

/-- Modelled from the spec: the `CommandLineParser` accessors read by
`runTests`/`main` (the parser itself, CommandLineParser.cpp, is outside the
sources under scrutiny; spec §6 describes the command-line surface as an
external collaborator).  One field per accessor. -/
structure CommandLineOptions where
  useCoutStream : Bool
  getXmlFileName : String
  getXmlStyleSheet : String
  getEncoding : String
  useBriefTestProgress : Bool
  noTestProgress : Bool
  plugIns : List CommandLinePlugInInfo
  getTestPath : String
  useCompilerOutputter : Bool
  useTextOutputter : Bool
  useXmlOutputter : Bool
  waitBeforeExit : Bool
deriving Repr

/-- Embeds `DynamicLibraryManagerException` as the driver observes it: a
plug-in load failure carrying the offending file's information (spec §4.3:
"reported as a plug-in load condition carrying the file name"). -/
structure DynamicLibraryManagerException where
  fileName : String
deriving Repr, DecidableEq

/-- Modelled from the spec: the behaviour of the external collaborators of
one `runTests` call — which dynamic-library files fail to load
(`PlugInManager::load`, not under the sources in scrutiny, throws a
`DynamicLibraryManagerException` for them), whether
`runner.run(controller, testPath)` resolves the test path (it throws
`std::invalid_argument` otherwise), and what `result.wasSuccessful()`
reports after a completed run. -/
structure Env where
  failingPlugIns : List String
  pathResolves : Bool
  allTestsSuccessful : Bool
deriving Repr

/-- The plug-in set-up loop of `runTests` (DllPlugInTester.cpp lines 67–72):
`plugInManager.load` is called for each command-line plug-in in order; a load
failure throws, which aborts the loop at once.  Returns the list of file
names whose load was attempted together with the loop's outcome (`Except.ok`
when every load succeeded, otherwise the exception that escaped). -/
def loadPlugIns (env : Env) :
    List CommandLinePlugInInfo → List String × Except DynamicLibraryManagerException Unit
  | [] => ([], Except.ok ())
  | p :: ps =>
    if p.m_fileName ∈ env.failingPlugIns then
      ([p.m_fileName], Except.error { fileName := p.m_fileName })
    else
      let rest := loadPlugIns env ps
      (p.m_fileName :: rest.1, rest.2)

/-- The C++ objects whose lifetime `runTests` manages. -/
inductive Obj where
  | plugInManager
  | controller
  | result
  | xmlStream
  | xmlOutputter
  | textOutputter
  | compilerOutputter
  | briefListener
  | dotListener
  | runner
deriving Repr, DecidableEq

/-- One observable action of a `runTests` call. -/
inductive TraceEvent where
  | construct (o : Obj)
  | destroy (o : Obj)
  | attemptLoad (fileName : String)
  | controllerAddListenerResult
  | controllerAddListenerBrief
  | controllerAddListenerDot
  | plugInAddListener
  | runnerRun
  | reportPathFailure
  | plugInRemoveListener
  | writeCompiler
  | writeText
  | addXmlOutputterHooks
  | writeXml
  | removeXmlOutputterHooks
deriving Repr, DecidableEq

/-- The automatic-storage objects of the inner scope of `runTests`
(DllPlugInTester.cpp lines 40–113) that exist whenever the plug-in loop is
reached, in construction order.  C++ destroys them in reverse of this order
at scope exit — on the normal path and during stack unwinding alike.  The
heap-allocated `xmlStream` is not among them: it is released by the explicit
`delete` on line 112, which the normal path alone reaches. -/
def blockStackObjects : List Obj :=
  [Obj.controller, Obj.result, Obj.xmlOutputter, Obj.textOutputter,
   Obj.compilerOutputter, Obj.briefListener, Obj.dotListener]

/-- The construction and listener-registration actions of `runTests` up to
the plug-in loop (lines 36–65): the manager (line 36, before the scope), the
controller and collector, the collector's registration, the optional XML file
stream, the three outputters, the two progress listeners, and the optional
registration of one of them. -/
def constructEvents (parser : CommandLineOptions) : List TraceEvent :=
  [TraceEvent.construct Obj.plugInManager,
   TraceEvent.construct Obj.controller,
   TraceEvent.construct Obj.result,
   TraceEvent.controllerAddListenerResult]
  ++ (if parser.getXmlFileName ≠ "" then [TraceEvent.construct Obj.xmlStream] else [])
  ++ [TraceEvent.construct Obj.xmlOutputter,
      TraceEvent.construct Obj.textOutputter,
      TraceEvent.construct Obj.compilerOutputter,
      TraceEvent.construct Obj.briefListener,
      TraceEvent.construct Obj.dotListener]
  ++ (if parser.useBriefTestProgress then [TraceEvent.controllerAddListenerBrief]
      else if !parser.noTestProgress then [TraceEvent.controllerAddListenerDot]
      else [])

/-- The trace of one `runTests(parser)` call (lines 32–116) without its final
action.  After the constructions and the load attempts, a load failure makes
the exception unwind the inner scope at once (destroying its automatic
objects in reverse construction order); otherwise the driver registers the
plug-ins' listeners, builds the runner, runs (catching the path-resolution
failure inside the scope, line 87), unregisters the plug-ins' listeners,
writes the requested reports (adding and removing the plug-ins' XML hooks
around the XML write), deletes the XML file stream if one was opened, and
leaves the scope, destroying its automatic objects in reverse construction
order. -/
def runTestsBody (env : Env) (parser : CommandLineOptions) : List TraceEvent :=
  constructEvents parser
  ++ (loadPlugIns env parser.plugIns).1.map TraceEvent.attemptLoad
  ++ (match (loadPlugIns env parser.plugIns).2 with
      | Except.error _ => []
      | Except.ok _ =>
        [TraceEvent.plugInAddListener,
         TraceEvent.construct Obj.runner,
         TraceEvent.runnerRun]
        ++ (if env.pathResolves then [] else [TraceEvent.reportPathFailure])
        ++ [TraceEvent.plugInRemoveListener]
        ++ (if parser.useCompilerOutputter then [TraceEvent.writeCompiler] else [])
        ++ (if parser.useTextOutputter then [TraceEvent.writeText] else [])
        ++ (if parser.useXmlOutputter then
              [TraceEvent.addXmlOutputterHooks, TraceEvent.writeXml,
               TraceEvent.removeXmlOutputterHooks]
            else [])
        ++ (if parser.getXmlFileName ≠ "" then [TraceEvent.destroy Obj.xmlStream] else [])
        ++ [TraceEvent.destroy Obj.runner])
  ++ (blockStackObjects.reverse.map TraceEvent.destroy)

/-- The full trace of one `runTests` call: after the inner scope has been
torn down — on every path — the local `plugInManager` (declared on line 36,
before the scope) is destroyed, unloading the plug-in libraries; this is the
call's final action whether it returns or propagates the load exception. -/
def runTestsEvents (env : Env) (parser : CommandLineOptions) : List TraceEvent :=
  runTestsBody env parser ++ [TraceEvent.destroy Obj.plugInManager]

/-- The value of one `runTests` call: the load exception when a plug-in load
failed, otherwise `wasSuccessful` — initialized `false` and assigned
`result.wasSuccessful()` only when `runner.run` did not throw (lines 35 and
82–92), hence `false` whenever the test path did not resolve. -/
def runTestsResult (env : Env) (parser : CommandLineOptions) :
    Except DynamicLibraryManagerException Bool :=
  match (loadPlugIns env parser.plugIns).2 with
  | Except.error e => Except.error e
  | Except.ok _ => Except.ok (env.pathResolves && env.allTestsSuccessful)

/-- Embeds `runTests` (lines 32–116): its observable trace next to its
outcome. -/
def runTests (env : Env) (parser : CommandLineOptions) :
    List TraceEvent × Except DynamicLibraryManagerException Bool :=
  (runTestsEvents env parser, runTestsResult env parser)

/-- DllPlugInTester.cpp line 213. -/
def successReturnCode : Int := 0

/-- DllPlugInTester.cpp line 214. -/
def failureReturnCode : Int := 1

/-- DllPlugInTester.cpp line 215 (the source spells it `badCommadLine`). -/
def badCommadLineReturnCode : Int := 2

/-- What one `main` invocation is observed to do: its exit code, and the load
failure it reported to `cerr` when `runTests` threw one. -/
structure MainOutcome where
  exitCode : Int
  loadErrorReported : Option DynamicLibraryManagerException
deriving Repr, DecidableEq

/-- Embeds `main` (lines 209–256).  `argc < 2` prints usage and exits with
the bad-command-line code; a `CommandLineParserException` from `parse()`
(`parseSucceeds = false`; the parser is an external collaborator) likewise;
otherwise `runTests` runs, a `DynamicLibraryManagerException` escaping it is
caught and reported, and the exit code is 0 exactly when `wasSuccessful`
remained true. -/
def main (argc : Nat) (parseSucceeds : Bool) (env : Env)
    (parser : CommandLineOptions) : MainOutcome :=
  if argc < 2 then
    { exitCode := badCommadLineReturnCode, loadErrorReported := none }
  else if !parseSucceeds then
    { exitCode := badCommadLineReturnCode, loadErrorReported := none }
  else
    match runTestsResult env parser with
    | Except.error e =>
        { exitCode := failureReturnCode, loadErrorReported := some e }
    | Except.ok wasSuccessful =>
        { exitCode := if wasSuccessful then successReturnCode else failureReturnCode,
          loadErrorReported := none }

/-- `true` exactly when every plug-in named on the command line loads. -/
def loadAllSucceeds (env : Env) (ps : List CommandLinePlugInInfo) : Bool :=
  match (loadPlugIns env ps).2 with
  | Except.ok _ => true
  | Except.error _ => false

end DllPlugInTester

namespace DllPlugInTester

theorem destroyManager_not_mem_body (env : Env) (parser : CommandLineOptions) :
    TraceEvent.destroy Obj.plugInManager ∉ runTestsBody env parser := by
  rcases hl : (loadPlugIns env parser.plugIns).2 with e | u
  · simp only [runTestsBody, constructEvents, blockStackObjects, hl, List.mem_append,
               not_or, List.mem_map]
    split_ifs <;> simp
  · simp only [runTestsBody, constructEvents, blockStackObjects, hl, List.mem_append,
               not_or, List.mem_map]
    split_ifs <;> simp

theorem trace_addRemoveListener_balanced (env : Env) (parser : CommandLineOptions) :
    (TraceEvent.plugInAddListener ∈ (runTests env parser).1
      ↔ TraceEvent.plugInRemoveListener ∈ (runTests env parser).1) := by
  rcases hl : (loadPlugIns env parser.plugIns).2 with e | u
  · have h1 : TraceEvent.plugInAddListener ∉ (runTests env parser).1 := by
      simp only [runTests, runTestsEvents, runTestsBody, constructEvents, blockStackObjects,
                 hl, List.mem_append, not_or, List.mem_map]
      split_ifs <;> simp
    have h2 : TraceEvent.plugInRemoveListener ∉ (runTests env parser).1 := by
      simp only [runTests, runTestsEvents, runTestsBody, constructEvents, blockStackObjects,
                 hl, List.mem_append, not_or, List.mem_map]
      split_ifs <;> simp
    exact iff_of_false h1 h2
  · have h1 : TraceEvent.plugInAddListener ∈ (runTests env parser).1 := by
      simp [runTests, runTestsEvents, runTestsBody, hl]
    have h2 : TraceEvent.plugInRemoveListener ∈ (runTests env parser).1 := by
      simp [runTests, runTestsEvents, runTestsBody, hl]
    exact iff_of_true h1 h2

/-- Claim C3: on every execution path of `runTests` — the normal path, the
path-resolution-failure path (caught inside the scope) and the load-failure
unwinding path alike — the objects holding plug-in memory are torn down
before the `PlugInManager` is destroyed and its libraries unloaded: the
trace of every call ends with the manager's destruction, which occurs exactly
once, so every other action — in particular every destruction of the
`TestResult` controller, collector and the three outputters, each of which
does occur on every path, and the removal of the plug-in-registered
listeners, which occurs whenever their registration did — precedes the
unload. -/
theorem runTests_destructionOrder (env : Env) (parser : CommandLineOptions) :
    (runTests env parser).1.getLast? = some (TraceEvent.destroy Obj.plugInManager) ∧
    (runTests env parser).1.count (TraceEvent.destroy Obj.plugInManager) = 1 ∧
    (TraceEvent.destroy Obj.controller ∈ (runTests env parser).1 ∧
     TraceEvent.destroy Obj.result ∈ (runTests env parser).1 ∧
     TraceEvent.destroy Obj.xmlOutputter ∈ (runTests env parser).1 ∧
     TraceEvent.destroy Obj.textOutputter ∈ (runTests env parser).1 ∧
     TraceEvent.destroy Obj.compilerOutputter ∈ (runTests env parser).1) ∧
    (TraceEvent.plugInAddListener ∈ (runTests env parser).1
      ↔ TraceEvent.plugInRemoveListener ∈ (runTests env parser).1) := by
  refine ⟨?_, ?_, ⟨?_, ?_, ?_, ?_, ?_⟩, trace_addRemoveListener_balanced env parser⟩
  · simp [runTests, runTestsEvents, List.getLast?_append_of_ne_nil]
  · have hb := destroyManager_not_mem_body env parser
    simp [runTests, runTestsEvents, List.count_append, List.count_eq_zero.mpr hb]
  · simp [runTests, runTestsEvents, runTestsBody, blockStackObjects]
  · simp [runTests, runTestsEvents, runTestsBody, blockStackObjects]
  · simp [runTests, runTestsEvents, runTestsBody, blockStackObjects]
  · simp [runTests, runTestsEvents, runTestsBody, blockStackObjects]
  · simp [runTests, runTestsEvents, runTestsBody, blockStackObjects]

theorem loadPlugIns_failFast (env : Env) (pre post : List CommandLinePlugInInfo)
    (bad : CommandLinePlugInInfo)
    (hpre : ∀ p ∈ pre, p.m_fileName ∉ env.failingPlugIns)
    (hbad : bad.m_fileName ∈ env.failingPlugIns) :
    loadPlugIns env (pre ++ bad :: post)
      = (pre.map CommandLinePlugInInfo.m_fileName ++ [bad.m_fileName],
         Except.error { fileName := bad.m_fileName }) := by
  revert hpre
  induction pre with
  | nil => intro _; simp [loadPlugIns, hbad]
  | cons p ps ih =>
    intro hpre
    have hp : p.m_fileName ∉ env.failingPlugIns := hpre p (by simp)
    have ih2 := ih (fun q hq => hpre q (by simp [hq]))
    simp [loadPlugIns, hp, ih2]

/-- Claim C6: the plug-in files named on the command line are loaded one by
one in command-line order, and a load failure aborts the batch: when the
plug-in list splits as `pre ++ bad :: post` with every file of `pre` loading
and `bad` failing, the attempted loads are exactly `pre`'s files followed by
`bad` — no load of `post` is ever attempted — the loop's outcome is the
exception carrying `bad`'s file name, and `main` surfaces exactly that
exception at top level and exits with the failure code. -/
theorem plugInLoad_failFast (env : Env) (parser : CommandLineOptions) (argc : Nat)
    (pre post : List CommandLinePlugInInfo) (bad : CommandLinePlugInInfo)
    (hplug : parser.plugIns = pre ++ bad :: post)
    (hpre : ∀ p ∈ pre, p.m_fileName ∉ env.failingPlugIns)
    (hbad : bad.m_fileName ∈ env.failingPlugIns)
    (hargc : 2 ≤ argc) :
    (loadPlugIns env parser.plugIns).1
        = pre.map CommandLinePlugInInfo.m_fileName ++ [bad.m_fileName] ∧
    (loadPlugIns env parser.plugIns).2
        = Except.error { fileName := bad.m_fileName } ∧
    main argc true env parser
      = { exitCode := failureReturnCode,
          loadErrorReported := some { fileName := bad.m_fileName } } := by
  have h := loadPlugIns_failFast env pre post bad hpre hbad
  have hmain : ¬ argc < 2 := by omega
  refine ⟨by rw [hplug, h], by rw [hplug, h], ?_⟩
  simp [main, hmain, runTestsResult, hplug, h]

/-- Witness for C6 at a concrete command line: three plug-ins, of which the
second fails to load — only the first two loads are attempted, and `main`
exits 1 reporting the second file. -/
theorem plugInLoad_failFast_witness :
    (([⟨"a.dll", ""⟩] : List CommandLinePlugInInfo).map CommandLinePlugInInfo.m_fileName
        ++ ["bad.dll"] = ["a.dll", "bad.dll"]) ∧
    ((loadPlugIns { failingPlugIns := ["bad.dll"], pathResolves := true,
                    allTestsSuccessful := true }
        [⟨"a.dll", ""⟩, ⟨"bad.dll", ""⟩, ⟨"c.dll", ""⟩]).1
        = ([⟨"a.dll", ""⟩] : List CommandLinePlugInInfo).map CommandLinePlugInInfo.m_fileName
            ++ ["bad.dll"] ∧
     (loadPlugIns { failingPlugIns := ["bad.dll"], pathResolves := true,
                    allTestsSuccessful := true }
        [⟨"a.dll", ""⟩, ⟨"bad.dll", ""⟩, ⟨"c.dll", ""⟩]).2
        = Except.error { fileName := "bad.dll" } ∧
     main 2 true
        { failingPlugIns := ["bad.dll"], pathResolves := true, allTestsSuccessful := true }
        { useCoutStream := false, getXmlFileName := "", getXmlStyleSheet := "",
          getEncoding := "", useBriefTestProgress := false, noTestProgress := false,
          plugIns := [⟨"a.dll", ""⟩, ⟨"bad.dll", ""⟩, ⟨"c.dll", ""⟩],
          getTestPath := "", useCompilerOutputter := false, useTextOutputter := false,
          useXmlOutputter := false, waitBeforeExit := false }
        = { exitCode := failureReturnCode,
            loadErrorReported := some { fileName := "bad.dll" } }) :=
  ⟨by decide,
   plugInLoad_failFast
     { failingPlugIns := ["bad.dll"], pathResolves := true, allTestsSuccessful := true }
     { useCoutStream := false, getXmlFileName := "", getXmlStyleSheet := "",
       getEncoding := "", useBriefTestProgress := false, noTestProgress := false,
       plugIns := [⟨"a.dll", ""⟩, ⟨"bad.dll", ""⟩, ⟨"c.dll", ""⟩],
       getTestPath := "", useCompilerOutputter := false, useTextOutputter := false,
       useXmlOutputter := false, waitBeforeExit := false }
     2 [⟨"a.dll", ""⟩] [⟨"c.dll", ""⟩] ⟨"bad.dll", ""⟩
     rfl (by decide) (by decide) (by decide)⟩

/-- Claim C7: `main` exits with 0 if and only if the command line was
well-formed (at least one argument after the program name, parse succeeded),
every plug-in loaded, the test path resolved and all tests passed; it exits
with 2 exactly when the command line was malformed (no argument given, or
`parse()` threw); and it exits with 1 in every remaining case — a test
failed or errored (`wasSuccessful` false), the path failed to resolve, or a
plug-in failed to load. -/
theorem main_exitCodes (argc : Nat) (parseSucceeds : Bool) (env : Env)
    (parser : CommandLineOptions) :
    ((main argc parseSucceeds env parser).exitCode = successReturnCode ↔
      (2 ≤ argc ∧ parseSucceeds = true ∧ loadAllSucceeds env parser.plugIns = true ∧
       env.pathResolves = true ∧ env.allTestsSuccessful = true)) ∧
    ((main argc parseSucceeds env parser).exitCode = badCommadLineReturnCode ↔
      (argc < 2 ∨ parseSucceeds = false)) ∧
    ((main argc parseSucceeds env parser).exitCode = failureReturnCode ↔
      (2 ≤ argc ∧ parseSucceeds = true ∧
       ¬(loadAllSucceeds env parser.plugIns = true ∧ env.pathResolves = true ∧
         env.allTestsSuccessful = true))) := by
  by_cases h1 : argc < 2 <;> cases parseSucceeds <;>
    rcases hres : (loadPlugIns env parser.plugIns).2 with e | u <;>
    cases hpath : env.pathResolves <;> cases hsucc : env.allTestsSuccessful <;>
    simp [main, runTestsResult, loadAllSucceeds, successReturnCode, failureReturnCode,
          badCommadLineReturnCode, h1, hres, hpath, hsucc] <;> omega

end DllPlugInTester
